import Mathlib

/-!
Shallow embedding of the `planetensimulation-rs` repository (a Wa-Tor style
predator/prey cellular automaton) for checking its natural-language
specification.

The sources embedded here are `src/field.rs` (the `AnimalStatus`, `FieldType`
and `Field` types with the per-animal movement logic) and `src/board.rs`
(the `Board` type with `new`, `generate_random_animals`, `step` and
`count_animals`).

Modelling conventions:
* `u32`/`usize` values are `Nat`.  The construction-time overflow check in
  `Board::new` is modelled with explicit wrapping modulo `2^32`
  (two's-complement wrap, the release-profile semantics of Rust overflow);
  everywhere else the values stay far below `2^32`, so plain `Nat`
  arithmetic coincides with the machine arithmetic.
* the thread-local RNG is modelled by an explicit stream of raw draws
  (`List Nat`), consumed head first; `rng.gen_range(lo..hi)` becomes
  `lo + r % (hi - lo)` for the next raw draw `r`.
* `Option::unwrap` on an animal's status is modelled by `Option.getD` with
  an (unreachable under the code's invariants) default value.
* Rust `Vec` indexing is modelled by `List.getD` / `List.set`; an
  out-of-bounds read (a panic in Rust) is tracked separately through the
  in-bounds side conditions of the theorems below.
-/

namespace Wator

/-- The RNG is an explicit stream of raw non-negative draws. -/
abbrev RngStream := List Nat

/-- Take the next raw draw off the stream. -/
def drawRng (rng : RngStream) : Nat × RngStream := (rng.headD 0, rng.tail)

/-- `rng.gen_range(lo..hi)`: for a raw draw `r` the sampled value is
`lo + r % (hi - lo)`, uniform over `[lo, hi)` when `r` is uniform. -/
def genRange (lo hi r : Nat) : Nat := lo + r % (hi - lo)

/- `src/field.rs` constants. -/

def MAX_SHARK_LIFETIME : Nat := 8
def SHARK_BREED_TIME : Nat := 8
def FISH_BREED_TIME : Nat := 3

/-- `AnimalStatus` from `src/field.rs`: `life` is the shark energy
(`None` for fish), `breed_counter` counts down to reproduction. -/
structure AnimalStatus where
  life : Option Nat
  breed_counter : Nat
deriving DecidableEq, Repr

/-- `AnimalStatus::new_fish`. -/
def AnimalStatus.new_fish : AnimalStatus :=
  { life := none, breed_counter := FISH_BREED_TIME }

/-- `AnimalStatus::new_shark`; `r` is the raw RNG draw feeding
`rng.gen_range(1..SHARK_BREED_TIME)`. -/
def AnimalStatus.new_shark (r : Nat) : AnimalStatus :=
  { life := some (genRange 1 SHARK_BREED_TIME r), breed_counter := SHARK_BREED_TIME }

/-- `AnimalStatus::reduce_breet` (`breed_counter -= 1`). -/
def AnimalStatus.reduce_breet (s : AnimalStatus) : AnimalStatus :=
  { s with breed_counter := s.breed_counter - 1 }

/-- `AnimalStatus::reduce_life`. -/
def AnimalStatus.reduce_life (s : AnimalStatus) : AnimalStatus :=
  match s.life with
  | some l => { s with life := some (l - 1) }
  | none => s

/-- `AnimalStatus::reset_life`. -/
def AnimalStatus.reset_life (s : AnimalStatus) : AnimalStatus :=
  match s.life with
  | some _ => { s with life := some MAX_SHARK_LIFETIME }
  | none => s

/-- Type of a field (`FieldType` in `src/field.rs`). -/
inductive FieldType where
  | Shark : FieldType
  | Fish : FieldType
  | Plankton : FieldType
deriving DecidableEq, Repr

/-- `AnimalStatus::reset_breed`. -/
def AnimalStatus.reset_breed (s : AnimalStatus) (t : FieldType) : AnimalStatus :=
  match t with
  | FieldType.Fish => { s with breed_counter := FISH_BREED_TIME }
  | FieldType.Shark => { s with breed_counter := SHARK_BREED_TIME }
  | FieldType.Plankton => s

/-- `AnimalStatus::is_dead`. -/
def AnimalStatus.is_dead (s : AnimalStatus) : Bool :=
  match s.life with
  | some l => l == 0
  | none => false

/-- `AnimalStatus::has_to_breed`. -/
def AnimalStatus.has_to_breed (s : AnimalStatus) : Bool :=
  s.breed_counter == 0

/-- Default used to model `Option::unwrap` on a status; never reached for a
field that actually carries an animal. -/
def defaultStatus : AnimalStatus := { life := none, breed_counter := 0 }

/-- `Field` from `src/field.rs`. -/
structure Field where
  type : FieldType
  x : Nat
  y : Nat
  status : Option AnimalStatus
deriving DecidableEq, Repr

/-- `Field::new`; threads the RNG because `AnimalStatus::new_shark` draws a
random initial energy. -/
def Field.new (t : FieldType) (x y : Nat) (status : Option AnimalStatus)
    (rng : RngStream) : Field × RngStream :=
  match status with
  | some st => (⟨t, x, y, some st⟩, rng)
  | none =>
    match t with
    | FieldType.Fish => (⟨t, x, y, some AnimalStatus.new_fish⟩, rng)
    | FieldType.Shark =>
      let (r, rng1) := drawRng rng
      (⟨t, x, y, some (AnimalStatus.new_shark r)⟩, rng1)
    | FieldType.Plankton => (⟨t, x, y, none⟩, rng)

/-- `Field::check_field_for_type`. -/
def Field.check_field_for_type (self : Field) (t : FieldType) : Bool :=
  self.type == t

/-- `Field::check_field_empty`. -/
def Field.check_field_empty (self : Field) : Bool :=
  self.check_field_for_type FieldType.Plankton

/-- Read the cell at column `x`, row `y` (`animals[y][x]` in the source).
Out of bounds, Rust panics; the model returns a plankton default, and the
theorems track the in-bounds side conditions explicitly. -/
def getCell (animals : List (List Field)) (x y : Nat) : Field :=
  (animals.getD y []).getD x ⟨FieldType.Plankton, x, y, none⟩

/-- Write the cell at column `x`, row `y` (`animals[y][x] = f`). -/
def setCell (animals : List (List Field)) (x y : Nat) (f : Field) :
    List (List Field) :=
  animals.set y ((animals.getD y []).set x f)

/- The four neighbour positions computed by `get_next_fish_position` and
`get_next_shark_position` in `src/field.rs`.  `R` is `animals.len()` (the
row count) and `CL` is `animals.first().unwrap().len()` (the column count).
Note that the source really does reduce the `left`/`right` column modulo
`animals.len()` — the ROW count — which is the slip the theorems below
exhibit. -/

/-- `up` neighbour: `(x % CL, (y + R - 1) % R)`. -/
def upPos (x y R CL : Nat) : Nat × Nat := (x % CL, (y + R - 1) % R)

/-- `down` neighbour: `(x % CL, (y + R + 1) % R)`. -/
def downPos (x y R CL : Nat) : Nat × Nat := (x % CL, (y + R + 1) % R)

/-- `left` neighbour as the source computes it: `((x + CL - 1) % R, y % R)`. -/
def leftPos (x y R CL : Nat) : Nat × Nat := ((x + CL - 1) % R, y % R)

/-- `right` neighbour as the source computes it: `((x + CL + 1) % R, y % R)`. -/
def rightPos (x y R CL : Nat) : Nat × Nat := ((x + CL + 1) % R, y % R)

/-- The `prioritized_moves` list built in `Field::get_next_shark_position`:
the neighbour positions (in source push order up, down, left, right) whose
cell holds a fish. -/
def prioritized_moves (animals : List (List Field)) (self : Field) :
    List (Nat × Nat) :=
  let R := animals.length
  let CL := (animals.headD []).length
  let up := upPos self.x self.y R CL
  let down := downPos self.x self.y R CL
  let left := leftPos self.x self.y R CL
  let right := rightPos self.x self.y R CL
  (if (getCell animals up.1 up.2).check_field_for_type FieldType.Fish then [up] else []) ++
  (if (getCell animals down.1 down.2).check_field_for_type FieldType.Fish then [down] else []) ++
  (if (getCell animals left.1 left.2).check_field_for_type FieldType.Fish then [left] else []) ++
  (if (getCell animals right.1 right.2).check_field_for_type FieldType.Fish then [right] else [])

/-- The `possible_moves` list built in both movement functions: the
neighbour positions (same order) whose cell is empty plankton. -/
def possible_moves (animals : List (List Field)) (self : Field) :
    List (Nat × Nat) :=
  let R := animals.length
  let CL := (animals.headD []).length
  let up := upPos self.x self.y R CL
  let down := downPos self.x self.y R CL
  let left := leftPos self.x self.y R CL
  let right := rightPos self.x self.y R CL
  (if (getCell animals up.1 up.2).check_field_empty then [up] else []) ++
  (if (getCell animals down.1 down.2).check_field_empty then [down] else []) ++
  (if (getCell animals left.1 left.2).check_field_empty then [left] else []) ++
  (if (getCell animals right.1 right.2).check_field_empty then [right] else [])

/-- `Field::get_next_fish_position`. -/
def Field.get_next_fish_position (self : Field) (animals : List (List Field))
    (rng : RngStream) : ((Nat × Nat) × Option AnimalStatus) × RngStream :=
  let s0 := self.status.getD defaultStatus
  let s1 := if s0.has_to_breed then s0.reset_breed self.type else s0
  let new_status := s1.reduce_breet
  let pm := possible_moves animals self
  if pm.isEmpty then
    (((self.x, self.y), some new_status), rng)
  else
    let (r, rng1) := drawRng rng
    let move_index := genRange 0 pm.length r
    ((pm.getD move_index (self.x, self.y), some new_status), rng1)

/-- `Field::get_next_shark_position`. -/
def Field.get_next_shark_position (self : Field) (animals : List (List Field))
    (rng : RngStream) : Option ((Nat × Nat) × AnimalStatus) × RngStream :=
  let s0 := self.status.getD defaultStatus
  let s1 := if s0.has_to_breed then s0.reset_breed self.type else s0
  let new_status := s1.reduce_breet
  let prio := prioritized_moves animals self
  let poss := possible_moves animals self
  if prio.isEmpty then
    let ns2 := new_status.reduce_life
    if ns2.is_dead then
      (none, rng)
    else if poss.isEmpty then
      (some ((self.x, self.y), ns2), rng)
    else
      let (r, rng1) := drawRng rng
      let idx := genRange 0 poss.length r
      (some (poss.getD idx (self.x, self.y), ns2), rng1)
  else
    let (r, rng1) := drawRng rng
    let idx := genRange 0 prio.length r
    (some (prio.getD idx (self.x, self.y), new_status.reset_life), rng1)

/-- `Field::step`. -/
def Field.step (self : Field) (animals : List (List Field)) (rng : RngStream) :
    Option ((Nat × Nat) × Option AnimalStatus) × RngStream :=
  match self.type with
  | FieldType.Fish =>
    let (res, rng1) := self.get_next_fish_position animals rng
    (some res, rng1)
  | FieldType.Shark =>
    let (res, rng1) := self.get_next_shark_position animals rng
    (res.map (fun pr => (pr.1, some pr.2)), rng1)
  | FieldType.Plankton => (some ((self.x, self.y), none), rng)

/- `src/lib.rs` and `src/board.rs`. -/

/-- `SimulationError` from `src/lib.rs`. -/
structure SimulationError where
  msg : String
deriving DecidableEq, Repr

/-- `Board` from `src/board.rs`. -/
structure Board where
  amount_fishes : Nat
  amount_sharks : Nat
  rows : Nat
  columns : Nat
  fields : List (List Field)
deriving DecidableEq, Repr

/-- Wrap modulus for `u32` arithmetic. -/
def U32MOD : Nat := 4294967296

/-- Whether the panic check in `Board::new` fires:
`amount_fishes + amount_sharks > rows * columns` evaluated in wrapping
`u32` arithmetic. -/
def Board.newPanics (amount_fishes amount_sharks rows columns : Nat) : Bool :=
  (amount_fishes + amount_sharks) % U32MOD > (rows * columns) % U32MOD

/-- `Board::new`; `none` models the panic, otherwise the constructed board.
`Vec::with_capacity` allocates an EMPTY vector, so `fields` starts as `[]`. -/
def Board.new (amount_fishes amount_sharks rows columns : Nat) : Option Board :=
  if Board.newPanics amount_fishes amount_sharks rows columns then
    none
  else
    some
      { amount_fishes := amount_fishes
        amount_sharks := amount_sharks
        rows := rows
        columns := columns
        fields := [] }

/-- `Board::get_fishes`: row-major scan keeping the fish cells. -/
def get_fishes (animals : List (List Field)) : List Field :=
  animals.flatten.filter (fun field => field.type == FieldType.Fish)

/-- `Board::get_sharks`. -/
def get_sharks (animals : List (List Field)) : List Field :=
  animals.flatten.filter (fun field => field.type == FieldType.Shark)

/-- The body of the counting loop in `Board::count_animals`. -/
def count_step (acc2 : Nat × Nat) (field : Field) : Nat × Nat :=
  match field.type with
  | FieldType.Fish => (acc2.1 + 1, acc2.2)
  | FieldType.Shark => (acc2.1, acc2.2 + 1)
  | FieldType.Plankton => acc2

/-- `Board::count_animals`: the nested counting loops. -/
def Board.count_animals (b : Board) : Nat × Nat :=
  b.fields.foldl (fun acc row => row.foldl count_step acc) (0, 0)

/-- The body of the fish loop in `Board::step`, processing one fish from
the snapshot against the live grid.  The old cell is written first, then
the destination cell, exactly as in the source. -/
def fish_tick (acc : List (List Field) × RngStream) (fish : Field) :
    List (List Field) × RngStream :=
  let flds := acc.1
  let rg := acc.2
  let old_x := fish.x
  let old_y := fish.y
  match fish.step flds rg with
  | (some ((new_x, new_y), status), rg1) =>
    let oldF :=
      if (status.getD defaultStatus).has_to_breed then
        Field.new FieldType.Fish old_x old_y none rg1
      else
        Field.new FieldType.Plankton old_x old_y none rg1
    let flds1 := setCell flds old_x old_y oldF.1
    let newF := Field.new FieldType.Fish new_x new_y status oldF.2
    (setCell flds1 new_x new_y newF.1, newF.2)
  | (none, rg1) =>
    -- models the `.unwrap()`; `Field::step` never returns `None` for a fish
    (flds, rg1)

/-- The body of the shark loop in `Board::step`. -/
def shark_tick (acc : List (List Field) × RngStream) (shark : Field) :
    List (List Field) × RngStream :=
  let flds := acc.1
  let rg := acc.2
  let old_x := shark.x
  let old_y := shark.y
  match shark.step flds rg with
  | (some ((new_x, new_y), status), rg1) =>
    let oldF :=
      if (status.getD defaultStatus).has_to_breed then
        Field.new FieldType.Shark old_x old_y none rg1
      else
        Field.new FieldType.Plankton old_x old_y none rg1
    let flds1 := setCell flds old_x old_y oldF.1
    let newF := Field.new FieldType.Shark new_x new_y status oldF.2
    (setCell flds1 new_x new_y newF.1, newF.2)
  | (none, rg1) =>
    let oldF := Field.new FieldType.Plankton old_x old_y none rg1
    (setCell flds old_x old_y oldF.1, oldF.2)

/-- `Board::step`.  Returns the `Result` together with the (possibly
mutated) board and the advanced RNG stream. -/
def Board.step (b : Board) (rng : RngStream) :
    Except SimulationError Unit × Board × RngStream :=
  let cloned_fields := b.fields
  let fishes := get_fishes cloned_fields
  let sharks := get_sharks cloned_fields
  if fishes.length == 0 || sharks.length == 0 then
    (Except.error ⟨"No fishes or sharks left on the board"⟩, b, rng)
  else
    let res1 := fishes.foldl fish_tick (b.fields, rng)
    let res2 := sharks.foldl shark_tick res1
    (Except.ok (), { b with fields := res2.1 }, res2.2)

/- `Board::generate_random_animals`. -/

/-- The initial all-plankton grid built at the top of
`generate_random_animals`. -/
def initGrid (rows columns : Nat) : List (List Field) :=
  (List.range rows).map fun y =>
    (List.range columns).map fun x => ⟨FieldType.Plankton, x, y, none⟩

/-- The rejection-sampling loop of `generate_random_animals`: redraw a
random cell until it is plankton.  `fuel` bounds the number of attempts
(the Rust loop just spins); `none` means the fuel ran out. -/
def findFreeCell (animals : List (List Field)) :
    RngStream → Nat → Option ((Nat × Nat) × RngStream)
  | _, 0 => none
  | rng, fuel + 1 =>
    let rx := (drawRng rng).1
    let rng1 := (drawRng rng).2
    let ry := (drawRng rng1).1
    let rng2 := (drawRng rng1).2
    let x := genRange 0 (animals.headD []).length rx
    let y := genRange 0 animals.length ry
    if (getCell animals x y).type ≠ FieldType.Plankton then
      findFreeCell animals rng2 fuel
    else
      some ((x, y), rng2)

/-- One placement loop of `generate_random_animals` (used once for fish,
once for sharks): place `n` animals of type `t` on freshly drawn free
cells. -/
def placeAnimals (t : FieldType) :
    Nat → List (List Field) → RngStream → Nat →
    Option (List (List Field) × RngStream)
  | 0, g, rng, _ => some (g, rng)
  | n + 1, g, rng, fuel =>
    match findFreeCell g rng fuel with
    | none => none
    | some ((x, y), rng1) =>
      let res := Field.new t x y none rng1
      placeAnimals t n (setCell g x y res.1) res.2 fuel

/-- `Board::generate_random_animals`. -/
def Board.generate_random_animals (b : Board) (rng : RngStream) (fuel : Nat) :
    Option (Board × RngStream) :=
  match placeAnimals FieldType.Fish b.amount_fishes (initGrid b.rows b.columns) rng fuel with
  | none => none
  | some (g1, rng1) =>
    match placeAnimals FieldType.Shark b.amount_sharks g1 rng1 fuel with
    | none => none
    | some (g2, rng2) => some ({ b with fields := g2 }, rng2)

/-! ### Basic list lemmas about `set`, `getD` and filtered lengths -/

theorem getD_set_self {α : Type} :
    ∀ (l : List α) (n : Nat) (a d : α), n < l.length → (l.set n a).getD n d = a
  | [], n, _, _, h => absurd h (by simp)
  | _ :: _, 0, _, _, _ => rfl
  | x :: xs, n + 1, a, d, h =>
    getD_set_self xs n a d (by simpa using h)

theorem getD_set_ne {α : Type} :
    ∀ (l : List α) (n m : Nat) (a d : α), n ≠ m → (l.set n a).getD m d = l.getD m d
  | [], _, _, _, _, _ => rfl
  | _ :: _, 0, 0, _, _, h => absurd rfl h
  | _ :: _, 0, _ + 1, _, _, _ => rfl
  | _ :: _, _ + 1, 0, _, _, _ => rfl
  | x :: xs, n + 1, m + 1, a, d, h =>
    getD_set_ne xs n m a d (fun hnm => h (by omega))

theorem set_of_length_le {α : Type} :
    ∀ (l : List α) (n : Nat) (a : α), l.length ≤ n → l.set n a = l
  | [], _, _, _ => rfl
  | x :: xs, 0, a, h => absurd h (by simp)
  | x :: xs, n + 1, a, h => by
    simpa using set_of_length_le xs n a (by simpa using h)

theorem getCell_setCell_self (g : List (List Field)) (x y : Nat) (f : Field)
    (hy : y < g.length) (hx : x < (g.getD y []).length) :
    getCell (setCell g x y f) x y = f := by
  unfold getCell setCell
  rw [getD_set_self g y _ [] hy, getD_set_self _ x f _ hx]

theorem getCell_setCell_ne (g : List (List Field)) (x y x' y' : Nat) (f : Field)
    (h : (x', y') ≠ (x, y)) :
    getCell (setCell g x y f) x' y' = getCell g x' y' := by
  unfold getCell setCell
  by_cases hy : y = y'
  · subst hy
    have hx : x ≠ x' := fun hx => h (by simp [hx])
    by_cases hlen : y < g.length
    · rw [getD_set_self g y _ [] hlen, getD_set_ne _ x x' f _ hx]
    · rw [set_of_length_le g y _ (by omega)]
  · rw [getD_set_ne g y y' _ [] hy]

theorem length_setCell (g : List (List Field)) (x y : Nat) (f : Field) :
    (setCell g x y f).length = g.length := by
  simp [setCell]

/-- All rows of the grid have length `c`. -/
def rect (g : List (List Field)) (c : Nat) : Prop :=
  ∀ row ∈ g, row.length = c

instance (g : List (List Field)) (c : Nat) : Decidable (rect g c) := by
  unfold rect; infer_instance

theorem getD_mem_of_lt {α : Type} (l : List α) (n : Nat) (d : α)
    (h : n < l.length) : l.getD n d ∈ l := by
  rw [List.getD_eq_getElem?_getD, List.getElem?_eq_getElem h]
  exact List.getElem_mem h

theorem rect_setCell (g : List (List Field)) (x y : Nat) (f : Field) (c : Nat)
    (hg : rect g c) : rect (setCell g x y f) c := by
  by_cases hy : y < g.length
  · intro row hrow
    rcases List.mem_or_eq_of_mem_set hrow with h | h
    · exact hg row h
    · subst h
      rw [List.length_set]
      exact hg _ (getD_mem_of_lt _ _ _ hy)
  · unfold setCell
    rw [List.set_eq_of_length_le (by omega)]
    exact hg

theorem headD_length_of_rect (g : List (List Field)) (c : Nat)
    (hg : rect g c) (hlen : 0 < g.length) : (g.headD []).length = c := by
  cases g with
  | nil => simp at hlen
  | cons row rest => exact hg row (by simp)

theorem getD_length_of_rect (g : List (List Field)) (c : Nat) (y : Nat)
    (hg : rect g c) (hy : y < g.length) : (g.getD y []).length = c :=
  hg _ (getD_mem_of_lt _ _ _ hy)

theorem filter_length_set_row (p : Field → Bool) :
    ∀ (row : List Field) (x : Nat) (f dflt : Field), x < row.length →
      ((row.set x f).filter p).length + (if p (row.getD x dflt) then 1 else 0)
        = (row.filter p).length + (if p f then 1 else 0)
  | [], x, _, _, h => absurd h (by simp)
  | a :: tl, 0, f, dflt, _ => by
    simp only [List.set_cons_zero, List.getD_cons_zero, List.filter_cons]
    by_cases hf : p f = true <;> by_cases ha : p a = true <;>
      simp [hf, ha]
  | a :: tl, x + 1, f, dflt, h => by
    have ih := filter_length_set_row p tl x f dflt (by simpa using h)
    simp only [List.set_cons_succ, List.getD_cons_succ, List.filter_cons]
    by_cases ha : p a = true <;> simp [ha] at ih ⊢ <;> omega

theorem filter_length_flatten_set (p : Field → Bool) :
    ∀ (g : List (List Field)) (y : Nat) (r' : List Field), y < g.length →
      (((g.set y r').flatten).filter p).length + ((g.getD y []).filter p).length
        = ((g.flatten).filter p).length + (r'.filter p).length
  | [], y, _, h => absurd h (by simp)
  | row :: rest, 0, r', _ => by
    simp only [List.set_cons_zero, List.getD_cons_zero, List.flatten_cons,
      List.filter_append, List.length_append]
    omega
  | row :: rest, y + 1, r', h => by
    have ih := filter_length_flatten_set p rest y r' (by simpa using h)
    simp only [List.set_cons_succ, List.getD_cons_succ, List.flatten_cons,
      List.filter_append, List.length_append]
    omega

theorem filter_length_setCell (p : Field → Bool) (g : List (List Field))
    (x y : Nat) (f : Field) (hy : y < g.length) (hx : x < (g.getD y []).length) :
    (((setCell g x y f).flatten).filter p).length
        + (if p (getCell g x y) then 1 else 0)
      = ((g.flatten).filter p).length + (if p f then 1 else 0) := by
  have h1 := filter_length_flatten_set p g y ((g.getD y []).set x f) hy
  have h2 := filter_length_set_row p (g.getD y []) x f
    ⟨FieldType.Plankton, x, y, none⟩ hx
  unfold setCell getCell
  omega

/-! ### Characterizing `count_animals` by the filtered row-major scans -/

theorem foldl_count_row (row : List Field) : ∀ acc : Nat × Nat,
    row.foldl count_step acc
      = (acc.1 + (row.filter (fun field => field.type == FieldType.Fish)).length,
         acc.2 + (row.filter (fun field => field.type == FieldType.Shark)).length) := by
  induction row with
  | nil => intro acc; simp
  | cons a tl ih =>
    intro acc
    simp only [List.foldl_cons, List.filter_cons]
    cases ha : a.type <;>
      simp [ih, count_step, ha] <;> omega

theorem foldl_count_grid (g : List (List Field)) : ∀ acc : Nat × Nat,
    g.foldl (fun acc row => row.foldl count_step acc) acc
      = (acc.1 + ((g.flatten).filter (fun field => field.type == FieldType.Fish)).length,
         acc.2 + ((g.flatten).filter (fun field => field.type == FieldType.Shark)).length) := by
  induction g with
  | nil => intro acc; simp
  | cons row rest ih =>
    intro acc
    rw [List.foldl_cons, foldl_count_row, ih]
    simp only [List.flatten_cons, List.filter_append, List.length_append,
      Prod.mk.injEq]
    constructor <;> omega

theorem count_animals_eq (b : Board) :
    b.count_animals = ((get_fishes b.fields).length, (get_sharks b.fields).length) := by
  unfold Board.count_animals get_fishes get_sharks
  rw [foldl_count_grid]
  simp

/-! ### The status an animal carries after its movement computation -/

theorem get_next_fish_position_status (self : Field) (animals : List (List Field))
    (rng : RngStream) (st : AnimalStatus)
    (h : self.status = some st) (hty : self.type = FieldType.Fish) :
    (self.get_next_fish_position animals rng).1.2
      = some ⟨st.life,
          (if st.breed_counter = 0 then FISH_BREED_TIME else st.breed_counter) - 1⟩ := by
  have hstat :
      (if st.has_to_breed then st.reset_breed FieldType.Fish else st).reduce_breet
        = (⟨st.life,
            (if st.breed_counter = 0 then FISH_BREED_TIME else st.breed_counter) - 1⟩ :
            AnimalStatus) := by
    by_cases hbc : st.breed_counter = 0 <;>
      simp [AnimalStatus.has_to_breed, AnimalStatus.reset_breed,
        AnimalStatus.reduce_breet, hbc]
  by_cases hpm : (possible_moves animals self).isEmpty <;>
    simp [Field.get_next_fish_position, h, hty, hpm, hstat, drawRng]

theorem reduce_life_breed (s : AnimalStatus) :
    s.reduce_life.breed_counter = s.breed_counter := by
  unfold AnimalStatus.reduce_life
  cases s.life <;> rfl

theorem reset_life_breed (s : AnimalStatus) :
    s.reset_life.breed_counter = s.breed_counter := by
  unfold AnimalStatus.reset_life
  cases s.life <;> rfl

theorem reduce_life_life (s : AnimalStatus) (l : Nat) (h : s.life = some l) :
    s.reduce_life.life = some (l - 1) := by
  unfold AnimalStatus.reduce_life
  rw [h]

theorem reset_life_life (s : AnimalStatus) (l : Nat) (h : s.life = some l) :
    s.reset_life.life = some MAX_SHARK_LIFETIME := by
  unfold AnimalStatus.reset_life
  rw [h]

theorem reset_breed_life (s : AnimalStatus) (t : FieldType) :
    (s.reset_breed t).life = s.life := by
  cases t <;> rfl

theorem reduce_breet_life (s : AnimalStatus) : s.reduce_breet.life = s.life := rfl

theorem is_dead_of_life_zero (s : AnimalStatus) (h : s.life = some 0) :
    s.is_dead = true := by
  unfold AnimalStatus.is_dead
  rw [h]
  rfl

theorem getD_length_setCell (g : List (List Field)) (x y : Nat) (f : Field)
    (y' : Nat) : ((setCell g x y f).getD y' []).length = (g.getD y' []).length := by
  unfold setCell
  by_cases h : y = y'
  · subst h
    by_cases hlen : y < g.length
    · rw [getD_set_self _ _ _ _ hlen, List.length_set]
    · rw [List.set_eq_of_length_le (by omega)]
  · rw [getD_set_ne _ _ _ _ _ h]

theorem get_next_shark_position_breed (self : Field) (animals : List (List Field))
    (rng : RngStream) (st : AnimalStatus) (pos : Nat × Nat) (st' : AnimalStatus)
    (h : self.status = some st) (hty : self.type = FieldType.Shark)
    (hres : (self.get_next_shark_position animals rng).1 = some (pos, st')) :
    st'.breed_counter
      = (if st.breed_counter = 0 then SHARK_BREED_TIME else st.breed_counter) - 1 := by
  have hstat :
      ((if st.has_to_breed then st.reset_breed FieldType.Shark else st).reduce_breet).breed_counter
        = (if st.breed_counter = 0 then SHARK_BREED_TIME else st.breed_counter) - 1 := by
    by_cases hbc : st.breed_counter = 0 <;>
      simp [AnimalStatus.has_to_breed, AnimalStatus.reset_breed,
        AnimalStatus.reduce_breet, hbc]
  unfold Field.get_next_shark_position at hres
  rw [h, hty] at hres
  simp only [Option.getD_some] at hres
  by_cases hprio : (prioritized_moves animals self).isEmpty
  · simp only [hprio, if_true] at hres
    by_cases hdead :
        ((if st.has_to_breed then st.reset_breed FieldType.Shark else st).reduce_breet).reduce_life.is_dead
    · simp [hdead] at hres
    · by_cases hposs : (possible_moves animals self).isEmpty <;>
        · simp [hdead, hposs] at hres
          rw [← hres.2, reduce_life_breed]
          exact hstat
  · simp only [hprio, if_false, Bool.false_eq_true] at hres
    simp only [drawRng] at hres
    rw [← (Prod.mk.injEq _ _ _ _).mp (Option.some.injEq _ _ |>.mp hres) |>.2,
      reset_life_breed]
    exact hstat

/-! ### Claim theorems -/

/-- C1 counterexample: on a 2×2 board whose fish at (0,0) starts the tick
with `breed_counter = 0` (and a shark at (1,1)), `step()` moves the fish
and leaves PLANKTON at the old position — no offspring — because the
`has_to_breed()` test in `Board::step` is applied to the status returned by
the movement computation, i.e. AFTER the reset-then-decrement, not to the
pre-decrement value the claim describes. -/
theorem C1_counterexample :
    (Board.step
        ⟨1, 1, 2, 2,
          [[⟨FieldType.Fish, 0, 0, some ⟨none, 0⟩⟩, ⟨FieldType.Plankton, 1, 0, none⟩],
           [⟨FieldType.Plankton, 0, 1, none⟩, ⟨FieldType.Shark, 1, 1, some ⟨some 5, 5⟩⟩]]⟩
        [0, 0, 0, 0, 0]).1.isOk = true
    ∧ (getCell (Board.step
        ⟨1, 1, 2, 2,
          [[⟨FieldType.Fish, 0, 0, some ⟨none, 0⟩⟩, ⟨FieldType.Plankton, 1, 0, none⟩],
           [⟨FieldType.Plankton, 0, 1, none⟩, ⟨FieldType.Shark, 1, 1, some ⟨some 5, 5⟩⟩]]⟩
        [0, 0, 0, 0, 0]).2.1.fields 0 0).type = FieldType.Plankton := by
  decide

/-- C1 (amended): the offspring decision that `Board::step` takes — the
`has_to_breed()` test on the status RETURNED by
`get_next_fish_position` / `get_next_shark_position`, which is exactly the
branch condition of `fish_tick` / `shark_tick` — holds iff the animal's
`breed_counter` was 1 at the start of its processing (it is the
post-reset-then-decrement counter that is tested, and it reaches 0 exactly
from a starting value of 1). -/
theorem C1_breed_decision :
    (∀ (g : List (List Field)) (rng : RngStream) (f : Field) (st : AnimalStatus),
      f.type = FieldType.Fish → f.status = some st →
      ((((f.get_next_fish_position g rng).1.2.getD defaultStatus).has_to_breed = true)
        ↔ st.breed_counter = 1))
    ∧ (∀ (g : List (List Field)) (rng : RngStream) (f : Field) (st : AnimalStatus)
        (pos : Nat × Nat) (st' : AnimalStatus),
      f.type = FieldType.Shark → f.status = some st →
      (f.get_next_shark_position g rng).1 = some (pos, st') →
      (st'.has_to_breed = true ↔ st.breed_counter = 1)) := by
  constructor
  · intro g rng f st hty h
    rw [get_next_fish_position_status f g rng st h hty]
    simp only [Option.getD_some, AnimalStatus.has_to_breed, beq_iff_eq]
    by_cases hbc : st.breed_counter = 0 <;> simp [hbc, FISH_BREED_TIME] <;> omega
  · intro g rng f st pos st' hty h hres
    have hb := get_next_shark_position_breed f g rng st pos st' h hty hres
    simp only [AnimalStatus.has_to_breed, beq_iff_eq, hb]
    by_cases hbc : st.breed_counter = 0 <;> simp [hbc, SHARK_BREED_TIME] <;> omega

/-- Witness for `C1_breed_decision`: a fish and a shark that start with
`breed_counter = 1` both trigger the offspring branch. -/
theorem C1_breed_decision_witness :
    (((Field.get_next_fish_position ⟨FieldType.Fish, 0, 0, some ⟨none, 1⟩⟩ [] []).1.2.getD
        defaultStatus).has_to_breed = true)
    ∧ ((⟨some 4, 0⟩ : AnimalStatus).has_to_breed = true) := by
  constructor
  · exact (C1_breed_decision.1 [] [] ⟨FieldType.Fish, 0, 0, some ⟨none, 1⟩⟩ ⟨none, 1⟩
      rfl rfl).mpr rfl
  · exact (C1_breed_decision.2 [] [] ⟨FieldType.Shark, 0, 0, some ⟨some 5, 1⟩⟩ ⟨some 5, 1⟩
      (0, 0) ⟨some 4, 0⟩ rfl rfl (by decide)).mpr rfl

/-- C2: the neighbour lookups do NOT wrap on the correct axis.  On a grid
with 5 rows and 3 columns, the left neighbour of the animal at column 1,
row 0 is computed as column `(1 + 3 - 1) % 5 = 3`, an index that is not a
valid column of a 3-column grid (Rust panics on the read `animals[0][3]`),
whereas the toroidal wrap modulo the column count claimed by the spec gives
column `(1 + 3 - 1) % 3 = 0`. -/
theorem C2_wrap_failing_input :
    leftPos 1 0 5 3 = (3, 0) ∧ ¬ (leftPos 1 0 5 3).1 < 3 ∧ (1 + 3 - 1) % 3 = 0 := by
  decide

/-- C3: `step()` is not panic-free on non-square grids.  On a grid with
5 rows and 3 columns, the right neighbour of an animal at column 0 is
computed as column `(0 + 3 + 1) % 5 = 4`, out of bounds of every 3-element
row, so the read `animals[y][4]` in `get_next_fish_position` /
`get_next_shark_position` is an index-out-of-bounds panic. -/
theorem C3_oob_failing_input :
    rightPos 0 0 5 3 = (4, 0) ∧ ¬ (rightPos 0 0 5 3).1 < 3 := by
  decide

/-- C5 counterexample: with wrapping `u32` arithmetic the panic check in
`Board::new` compares `(fish + sharks) mod 2^32` with `(rows*columns) mod
2^32`, so for `fish = 2^32 - 1, sharks = 1, rows = columns = 1` the sum
wraps to 0 and the constructor does NOT abort although
`fish + sharks > rows * columns` holds mathematically. -/
theorem C5_counterexample :
    4294967295 + 1 > 1 * 1 ∧ Board.new 4294967295 1 1 1 ≠ none := by
  refine ⟨by norm_num, ?_⟩
  decide

/-- C5 (amended): when neither `fish + sharks` nor `rows * columns`
overflows `u32`, `Board::new` panics if and only if
`fish + sharks > rows * columns`. -/
theorem C5_new_panics_iff (f s r c : Nat)
    (h1 : f + s < 4294967296) (h2 : r * c < 4294967296) :
    Board.new f s r c = none ↔ f + s > r * c := by
  unfold Board.new Board.newPanics U32MOD
  rw [Nat.mod_eq_of_lt h1, Nat.mod_eq_of_lt h2]
  by_cases h : f + s > r * c
  · simp [h]
  · simp [h]

/-- Witness for `C5_new_panics_iff` at `fish = 5, sharks = 3, rows =
columns = 2`. -/
theorem C5_new_panics_iff_witness : Board.new 5 3 2 2 = none :=
  (C5_new_panics_iff 5 3 2 2 (by norm_num) (by norm_num)).mpr (by norm_num)

/-- C4: `step()` returns `Err(SimulationError("No fishes or sharks left on
the board"))` exactly when the fish count or the shark count is zero at the
start of the tick; in that case the board and the RNG are returned
untouched (the check precedes every mutation), and otherwise the tick runs
and returns `Ok`. -/
theorem C4_step_error_iff (b : Board) (rng : RngStream) :
    ((b.step rng).1 = Except.error ⟨"No fishes or sharks left on the board"⟩
        ↔ b.count_animals.1 = 0 ∨ b.count_animals.2 = 0)
    ∧ ((b.count_animals.1 = 0 ∨ b.count_animals.2 = 0) → (b.step rng).2 = (b, rng))
    ∧ (¬ (b.count_animals.1 = 0 ∨ b.count_animals.2 = 0) →
        (b.step rng).1 = Except.ok ()) := by
  rw [count_animals_eq]
  by_cases h : (get_fishes b.fields).length = 0 ∨ (get_sharks b.fields).length = 0
  · have hb : ((get_fishes b.fields).length == 0
        || (get_sharks b.fields).length == 0) = true := by
      rcases h with h | h <;> simp [h]
    have hnil : get_fishes b.fields = [] ∨ get_sharks b.fields = [] := by
      rcases h with h | h
      · exact Or.inl (List.eq_nil_of_length_eq_zero h)
      · exact Or.inr (List.eq_nil_of_length_eq_zero h)
    unfold Board.step
    simp [hb, h]
    rcases hnil with hnil | hnil
    · exact ⟨Or.inl hnil, fun hn => absurd hnil hn⟩
    · exact ⟨Or.inr hnil, fun _ => hnil⟩
  · have h1 : ¬ (get_fishes b.fields).length = 0 := fun hh => h (Or.inl hh)
    have h2 : ¬ (get_sharks b.fields).length = 0 := fun hh => h (Or.inr hh)
    have hb : ((get_fishes b.fields).length == 0
        || (get_sharks b.fields).length == 0) = false := by
      simp [h1, h2]
    unfold Board.step
    simp [hb, h1, h2]

/-- Witness for `C4_step_error_iff`: a board with one fish and one shark
steps successfully. -/
theorem C4_step_error_iff_witness :
    (Board.step
        ⟨1, 1, 2, 2,
          [[⟨FieldType.Fish, 0, 0, some ⟨none, 3⟩⟩, ⟨FieldType.Plankton, 1, 0, none⟩],
           [⟨FieldType.Plankton, 0, 1, none⟩, ⟨FieldType.Shark, 1, 1, some ⟨some 5, 8⟩⟩]]⟩
        [0, 0, 0]).1 = Except.ok () :=
  (C4_step_error_iff
      ⟨1, 1, 2, 2,
        [[⟨FieldType.Fish, 0, 0, some ⟨none, 3⟩⟩, ⟨FieldType.Plankton, 1, 0, none⟩],
         [⟨FieldType.Plankton, 0, 1, none⟩, ⟨FieldType.Shark, 1, 1, some ⟨some 5, 8⟩⟩]]⟩
      [0, 0, 0]).2.2 (by decide)

/-- C10: a board fresh out of `Board::new` has an empty `fields` vector;
`step()` on it hits the zero-population check before any field access, so
it returns the `SimulationError` without panicking and leaves the board
unchanged, and `count_animals()` returns `(0, 0)`. -/
theorem C10_step_empty_board (f s r c : Nat) (b : Board) (rng : RngStream)
    (h : Board.new f s r c = some b) :
    b.step rng = (Except.error ⟨"No fishes or sharks left on the board"⟩, b, rng)
      ∧ b.count_animals = (0, 0) := by
  unfold Board.new at h
  by_cases hp : Board.newPanics f s r c = true
  · rw [if_pos hp] at h
    exact absurd h (by simp)
  · rw [if_neg hp] at h
    have hb : b = ⟨f, s, r, c, []⟩ := by
      cases h
      rfl
    subst hb
    exact ⟨rfl, rfl⟩

/-- C6: a shark with no fish on its four (computed) neighbour cells whose
energy reaches 0 after the decrement is removed by `step()`: its movement
computation returns `None`, the shark loop body turns its old cell into
plankton and writes no destination (whatever its breed counter was), and
the shark count drops by exactly 1 while the fish count is unchanged. -/
theorem C6_shark_starvation (g : List (List Field)) (rng : RngStream)
    (f : Field) (st : AnimalStatus)
    (hty : f.type = FieldType.Shark) (hst : f.status = some st)
    (hlife : st.life = some 1)
    (hnofish : prioritized_moves g f = [])
    (hy : f.y < g.length) (hx : f.x < (g.getD f.y []).length)
    (hcell : (getCell g f.x f.y).type = FieldType.Shark) :
    f.get_next_shark_position g rng = (none, rng)
    ∧ shark_tick (g, rng) f
        = (setCell g f.x f.y ⟨FieldType.Plankton, f.x, f.y, none⟩, rng)
    ∧ (get_sharks (shark_tick (g, rng) f).1).length + 1 = (get_sharks g).length
    ∧ (get_fishes (shark_tick (g, rng) f).1).length = (get_fishes g).length := by
  have hlife2 :
      ((if st.has_to_breed then st.reset_breed f.type else st).reduce_breet).life
        = some 1 := by
    rw [reduce_breet_life]
    by_cases hb : st.has_to_breed <;> simp [hb, reset_breed_life, hlife]
  have hnone : f.get_next_shark_position g rng = (none, rng) := by
    unfold Field.get_next_shark_position
    rw [hst]
    simp only [Option.getD_some]
    have hdead :
        ((if st.has_to_breed then st.reset_breed f.type
            else st).reduce_breet).reduce_life.is_dead = true := by
      apply is_dead_of_life_zero
      rw [reduce_life_life _ 1 hlife2]
    simp [hnofish, hdead]
  have htick : shark_tick (g, rng) f
      = (setCell g f.x f.y ⟨FieldType.Plankton, f.x, f.y, none⟩, rng) := by
    unfold shark_tick Field.step
    simp only [hty]
    simp [hnone, Field.new]
  refine ⟨hnone, htick, ?_, ?_⟩
  · rw [htick]
    have hcount := filter_length_setCell (fun field => field.type == FieldType.Shark)
      g f.x f.y ⟨FieldType.Plankton, f.x, f.y, none⟩ hy hx
    show ((setCell g f.x f.y ⟨FieldType.Plankton, f.x, f.y, none⟩).flatten.filter
        (fun field => field.type == FieldType.Shark)).length + 1
      = ((g.flatten).filter (fun field => field.type == FieldType.Shark)).length
    have e1 : (if ((getCell g f.x f.y).type == FieldType.Shark) = true
        then 1 else 0) = 1 := by rw [hcell]; rfl
    have e2 : (if (((⟨FieldType.Plankton, f.x, f.y, none⟩ : Field)).type
        == FieldType.Shark) = true then 1 else 0) = 0 := rfl
    simp only [e1, e2] at hcount
    omega
  · rw [htick]
    have hcount := filter_length_setCell (fun field => field.type == FieldType.Fish)
      g f.x f.y ⟨FieldType.Plankton, f.x, f.y, none⟩ hy hx
    show ((setCell g f.x f.y ⟨FieldType.Plankton, f.x, f.y, none⟩).flatten.filter
        (fun field => field.type == FieldType.Fish)).length
      = ((g.flatten).filter (fun field => field.type == FieldType.Fish)).length
    have e1 : (if ((getCell g f.x f.y).type == FieldType.Fish) = true
        then 1 else 0) = 0 := by rw [hcell]; rfl
    have e2 : (if (((⟨FieldType.Plankton, f.x, f.y, none⟩ : Field)).type
        == FieldType.Fish) = true then 1 else 0) = 0 := rfl
    simp only [e1, e2] at hcount
    omega

/-- A concrete 2×2 grid for the starvation witness: a shark with energy 1
at (0,0), everything else plankton. -/
def starvingSharkField : Field := ⟨FieldType.Shark, 0, 0, some ⟨some 1, 5⟩⟩

/-- The grid holding `starvingSharkField`. -/
def starvingSharkGrid : List (List Field) :=
  [[starvingSharkField, ⟨FieldType.Plankton, 1, 0, none⟩],
   [⟨FieldType.Plankton, 0, 1, none⟩, ⟨FieldType.Plankton, 1, 1, none⟩]]

/-- Witness for `C6_shark_starvation` on `starvingSharkGrid`. -/
theorem C6_shark_starvation_witness :
    Field.get_next_shark_position starvingSharkField starvingSharkGrid [] = (none, [])
    ∧ shark_tick (starvingSharkGrid, []) starvingSharkField
        = (setCell starvingSharkGrid 0 0 ⟨FieldType.Plankton, 0, 0, none⟩, [])
    ∧ (get_sharks (shark_tick (starvingSharkGrid, []) starvingSharkField).1).length + 1
        = (get_sharks starvingSharkGrid).length
    ∧ (get_fishes (shark_tick (starvingSharkGrid, []) starvingSharkField).1).length
        = (get_fishes starvingSharkGrid).length :=
  C6_shark_starvation starvingSharkGrid [] starvingSharkField ⟨some 1, 5⟩
    rfl rfl rfl (by decide) (by decide) (by decide) (by decide)

/-- C7: whenever a breeding animal moves away during `step()` (destination
differs from its old cell), the old cell receives a verbatim
freshly-constructed field: a fish offspring with `breed_counter =
FISH_BREED_TIME = 3` and no energy, or a shark offspring with
`breed_counter = SHARK_BREED_TIME = 8` and a fresh random energy in
`[1, 8)`; the fresh status never goes through the reset-then-decrement
path of the moving animal. -/
theorem C7_offspring_fresh :
    (∀ (g : List (List Field)) (rng : RngStream) (f : Field) (nx ny : Nat)
        (stO : Option AnimalStatus) (rg1 : RngStream),
      f.type = FieldType.Fish →
      f.get_next_fish_position g rng = (((nx, ny), stO), rg1) →
      (stO.getD defaultStatus).has_to_breed = true →
      (nx, ny) ≠ (f.x, f.y) →
      f.y < g.length → f.x < (g.getD f.y []).length →
      getCell (fish_tick (g, rng) f).1 f.x f.y
        = ⟨FieldType.Fish, f.x, f.y, some ⟨none, FISH_BREED_TIME⟩⟩)
    ∧ (∀ (g : List (List Field)) (rng : RngStream) (f : Field) (nx ny : Nat)
        (st' : AnimalStatus) (rg1 : RngStream),
      f.type = FieldType.Shark →
      f.get_next_shark_position g rng = (some ((nx, ny), st'), rg1) →
      st'.has_to_breed = true →
      (nx, ny) ≠ (f.x, f.y) →
      f.y < g.length → f.x < (g.getD f.y []).length →
      ∃ e, getCell (shark_tick (g, rng) f).1 f.x f.y
          = ⟨FieldType.Shark, f.x, f.y, some ⟨some e, SHARK_BREED_TIME⟩⟩
        ∧ 1 ≤ e ∧ e < SHARK_BREED_TIME) := by
  constructor
  · intro g rng f nx ny stO rg1 hty hfp hbreed hne hy hx
    have hstep : f.step g rng = (some ((nx, ny), stO), rg1) := by
      unfold Field.step
      simp only [hty, hfp]
    unfold fish_tick
    simp only [hstep, hbreed, if_true, Field.new]
    rw [getCell_setCell_ne _ nx ny f.x f.y _ (Ne.symm hne),
      getCell_setCell_self _ _ _ _ hy hx]
    rfl
  · intro g rng f nx ny st' rg1 hty hres hbreed hne hy hx
    have hstep : f.step g rng = (some ((nx, ny), some st'), rg1) := by
      unfold Field.step
      simp only [hty, hres]
      rfl
    refine ⟨genRange 1 SHARK_BREED_TIME (rg1.headD 0), ?_, ?_, ?_⟩
    · unfold shark_tick
      simp only [hstep, Option.getD_some, hbreed, if_true, Field.new, drawRng]
      rw [getCell_setCell_ne _ nx ny f.x f.y _ (Ne.symm hne),
        getCell_setCell_self _ _ _ _ hy hx]
      rfl
    · show 1 ≤ 1 + rg1.headD 0 % (SHARK_BREED_TIME - 1)
      omega
    · show 1 + rg1.headD 0 % (SHARK_BREED_TIME - 1) < SHARK_BREED_TIME
      have := Nat.mod_lt (rg1.headD 0) (y := SHARK_BREED_TIME - 1) (by decide)
      omega

/-- A fish one tick away from breeding, for the offspring witness. -/
def breedingFishField : Field := ⟨FieldType.Fish, 0, 0, some ⟨none, 1⟩⟩

/-- A 2×2 grid with `breedingFishField` and free neighbours. -/
def breedingFishGrid : List (List Field) :=
  [[breedingFishField, ⟨FieldType.Plankton, 1, 0, none⟩],
   [⟨FieldType.Plankton, 0, 1, none⟩, ⟨FieldType.Plankton, 1, 1, none⟩]]

/-- A shark one tick away from breeding, for the offspring witness. -/
def breedingSharkField : Field := ⟨FieldType.Shark, 0, 0, some ⟨some 5, 1⟩⟩

/-- A 2×2 grid with `breedingSharkField` next to a fish. -/
def breedingSharkGrid : List (List Field) :=
  [[breedingSharkField, ⟨FieldType.Plankton, 1, 0, none⟩],
   [⟨FieldType.Fish, 0, 1, some ⟨none, 3⟩⟩, ⟨FieldType.Plankton, 1, 1, none⟩]]

/-- Witness for `C7_offspring_fresh` on the two grids above. -/
theorem C7_offspring_fresh_witness :
    getCell (fish_tick (breedingFishGrid, [0]) breedingFishField).1 0 0
      = ⟨FieldType.Fish, 0, 0, some ⟨none, FISH_BREED_TIME⟩⟩
    ∧ ∃ e, getCell (shark_tick (breedingSharkGrid, [0]) breedingSharkField).1 0 0
          = ⟨FieldType.Shark, 0, 0, some ⟨some e, SHARK_BREED_TIME⟩⟩
        ∧ 1 ≤ e ∧ e < SHARK_BREED_TIME := by
  constructor
  · exact C7_offspring_fresh.1 breedingFishGrid [0] breedingFishField 0 1
      (some ⟨none, 0⟩) [] rfl (by decide) (by decide) (by decide) (by decide) (by decide)
  · exact C7_offspring_fresh.2 breedingSharkGrid [0] breedingSharkField 0 1
      ⟨some 8, 0⟩ [] rfl (by decide) (by decide) (by decide) (by decide) (by decide)

/-- C8: a shark with at least one fish on a neighbouring cell moves onto
the fish cell selected by the RNG draw among `prioritized_moves` (a member
of that list), its energy is reset to `MAX_SHARK_LIFETIME = 8` (not
decremented), and the destination cell afterwards holds the shark
(overwriting the fish); the energy is decremented by 1 only when no
neighbouring cell holds a fish. -/
theorem C8_shark_feeding (g : List (List Field)) (rng : RngStream)
    (f : Field) (st : AnimalStatus) (l : Nat)
    (hty : f.type = FieldType.Shark) (hst : f.status = some st)
    (hlife : st.life = some l) :
    (prioritized_moves g f ≠ [] →
      ∃ st',
        f.get_next_shark_position g rng
          = (some ((prioritized_moves g f).getD
              (genRange 0 (prioritized_moves g f).length (drawRng rng).1) (f.x, f.y),
             st'), (drawRng rng).2)
        ∧ (prioritized_moves g f).getD
            (genRange 0 (prioritized_moves g f).length (drawRng rng).1) (f.x, f.y)
            ∈ prioritized_moves g f
        ∧ st'.life = some MAX_SHARK_LIFETIME)
    ∧ (prioritized_moves g f = [] →
        ∀ pos st', (f.get_next_shark_position g rng).1 = some (pos, st') →
          st'.life = some (l - 1))
    ∧ (∀ nx ny st' rg1,
        f.get_next_shark_position g rng = (some ((nx, ny), st'), rg1) →
        ny < g.length → nx < (g.getD ny []).length →
        (getCell (shark_tick (g, rng) f).1 nx ny).type = FieldType.Shark) := by
  have hnl : ((if st.has_to_breed then st.reset_breed f.type
      else st).reduce_breet).life = some l := by
    rw [reduce_breet_life]
    by_cases hb : st.has_to_breed <;> simp [hb, reset_breed_life, hlife]
  refine ⟨?_, ?_, ?_⟩
  · intro hne
    have hprio : (prioritized_moves g f).isEmpty = false := by
      cases hh : (prioritized_moves g f).isEmpty
      · rfl
      · exact absurd (List.isEmpty_iff.mp hh) hne
    refine ⟨((if st.has_to_breed then st.reset_breed f.type
        else st).reduce_breet).reset_life, ?_, ?_, ?_⟩
    · unfold Field.get_next_shark_position
      rw [hst]
      simp only [Option.getD_some, hprio, Bool.false_eq_true, if_false, drawRng]
    · apply getD_mem_of_lt
      have hlen : 0 < (prioritized_moves g f).length :=
        List.length_pos.mpr hne
      unfold genRange
      simpa using Nat.mod_lt _ hlen
    · exact reset_life_life _ l hnl
  · intro hemp pos st' hres
    have hprio : (prioritized_moves g f).isEmpty = true := by
      rw [hemp]
      rfl
    unfold Field.get_next_shark_position at hres
    rw [hst] at hres
    simp only [Option.getD_some, hprio, if_true] at hres
    by_cases hdead : ((if st.has_to_breed then st.reset_breed f.type
        else st).reduce_breet).reduce_life.is_dead
    · simp [hdead] at hres
    · by_cases hposs : (possible_moves g f).isEmpty <;>
        · simp [hdead, hposs, drawRng] at hres
          rw [← hres.2]
          exact reduce_life_life _ l hnl
  · intro nx ny st' rg1 hres hyb hxb
    have hstep : f.step g rng = (some ((nx, ny), some st'), rg1) := by
      unfold Field.step
      simp only [hty, hres]
      rfl
    unfold shark_tick
    simp only [hstep, Field.new]
    rw [getCell_setCell_self _ nx ny _ (by rwa [length_setCell])
      (by rwa [getD_length_setCell])]

/-- Witness for `C8_shark_feeding` on `breedingSharkGrid` (one fish below
the shark): the shark feeds, keeps energy 8, and the fish cell now holds a
shark. -/
theorem C8_shark_feeding_witness :
    (∃ st',
        Field.get_next_shark_position breedingSharkField breedingSharkGrid [0]
          = (some ((prioritized_moves breedingSharkGrid breedingSharkField).getD
              (genRange 0 (prioritized_moves breedingSharkGrid breedingSharkField).length
                (drawRng [0]).1) (breedingSharkField.x, breedingSharkField.y),
             st'), (drawRng [0]).2)
        ∧ (prioritized_moves breedingSharkGrid breedingSharkField).getD
            (genRange 0 (prioritized_moves breedingSharkGrid breedingSharkField).length
              (drawRng [0]).1) (breedingSharkField.x, breedingSharkField.y)
            ∈ prioritized_moves breedingSharkGrid breedingSharkField
        ∧ st'.life = some MAX_SHARK_LIFETIME)
    ∧ (getCell (shark_tick (breedingSharkGrid, [0]) breedingSharkField).1 0 1).type
        = FieldType.Shark :=
  ⟨(C8_shark_feeding breedingSharkGrid [0] breedingSharkField ⟨some 5, 1⟩ 5
      rfl rfl rfl).1 (by decide),
   (C8_shark_feeding breedingSharkGrid [0] breedingSharkField ⟨some 5, 1⟩ 5
      rfl rfl rfl).2.2 0 1 ⟨some 8, 0⟩ [] (by decide) (by decide) (by decide)⟩

/-- Witness for `C10_step_empty_board` at `Board::new 1 1 2 2`. -/
theorem C10_step_empty_board_witness :
    Board.step ⟨1, 1, 2, 2, []⟩ []
        = (Except.error ⟨"No fishes or sharks left on the board"⟩, ⟨1, 1, 2, 2, []⟩, [])
      ∧ Board.count_animals ⟨1, 1, 2, 2, []⟩ = (0, 0) :=
  C10_step_empty_board 1 1 2 2 ⟨1, 1, 2, 2, []⟩ [] (by decide)

/-! ### Correctness of the rejection-sampling placement (`generate_random_animals`) -/

theorem findFreeCell_spec (g : List (List Field)) :
    ∀ (fuel : Nat) (rng : RngStream) (x y : Nat) (rng2 : RngStream),
      0 < g.length → 0 < (g.headD []).length →
      findFreeCell g rng fuel = some ((x, y), rng2) →
      y < g.length ∧ x < (g.headD []).length
        ∧ (getCell g x y).type = FieldType.Plankton
  | 0, rng, x, y, rng2, _, _, h => absurd h (by simp [findFreeCell])
  | fuel + 1, rng, x, y, rng2, hR, hC, h => by
    unfold findFreeCell at h
    simp only [] at h
    split at h
    · exact findFreeCell_spec g fuel _ x y rng2 hR hC h
    · next hcond =>
      rw [Option.some.injEq, Prod.mk.injEq, Prod.mk.injEq] at h
      obtain ⟨⟨hx, hy⟩, _⟩ := h
      subst hx
      subst hy
      refine ⟨?_, ?_, not_not.mp hcond⟩
      · show genRange 0 g.length _ < g.length
        unfold genRange
        simpa using Nat.mod_lt _ hR
      · show genRange 0 (g.headD []).length _ < (g.headD []).length
        unfold genRange
        simpa using Nat.mod_lt _ hC

theorem placeAnimals_spec (t : FieldType) (p : Field → Bool) (b0 : Bool) (c : Nat)
    (hplank : ∀ fl : Field, fl.type = FieldType.Plankton → p fl = false)
    (hnew : ∀ x y rng, p (Field.new t x y none rng).1 = b0) :
    ∀ (n : Nat) (g : List (List Field)) (rng : RngStream) (fuel : Nat)
      (g2 : List (List Field)) (rng2 : RngStream),
      0 < g.length → rect g c → 0 < c →
      placeAnimals t n g rng fuel = some (g2, rng2) →
      g2.length = g.length ∧ rect g2 c
        ∧ (g2.flatten.filter p).length
            = (g.flatten.filter p).length + (if b0 then n else 0)
  | 0, g, rng, fuel, g2, rng2, hR, hrect, hc, h => by
    unfold placeAnimals at h
    rw [Option.some.injEq, Prod.mk.injEq] at h
    obtain ⟨hg, _⟩ := h
    subst hg
    exact ⟨rfl, hrect, by cases b0 <;> simp⟩
  | n + 1, g, rng, fuel, g2, rng2, hR, hrect, hc, h => by
    unfold placeAnimals at h
    cases hf : findFreeCell g rng fuel with
    | none => rw [hf] at h; exact absurd h (by simp)
    | some res =>
      obtain ⟨⟨x, y⟩, rng1⟩ := res
      rw [hf] at h
      simp only [] at h
      obtain ⟨hyb, hxb0, hpl⟩ :=
        findFreeCell_spec g fuel rng x y rng1 hR
          (by rw [headD_length_of_rect g c hrect hR]; exact hc) hf
      have hxb : x < (g.getD y []).length := by
        rw [getD_length_of_rect g c y hrect hyb]
        rwa [headD_length_of_rect g c hrect hR] at hxb0
      have hkeep :=
        filter_length_setCell p g x y (Field.new t x y none rng1).1 hyb hxb
      have hold : (if p (getCell g x y) = true then 1 else 0) = 0 := by
        rw [hplank _ hpl]
        rfl
      have hnew2 : (if p (Field.new t x y none rng1).1 = true then 1 else 0)
          = (if b0 then 1 else 0) := by
        rw [hnew x y rng1]
      have ih := placeAnimals_spec t p b0 c hplank hnew n
        (setCell g x y (Field.new t x y none rng1).1)
        (Field.new t x y none rng1).2 fuel g2 rng2
        (by rw [length_setCell]; exact hR)
        (rect_setCell g x y _ c hrect) hc h
      refine ⟨by rw [ih.1, length_setCell], ih.2.1, ?_⟩
      have hcnt : ((setCell g x y (Field.new t x y none rng1).1).flatten.filter p).length
          = (g.flatten.filter p).length + (if b0 then 1 else 0) := by
        rw [hold, hnew2] at hkeep
        omega
      rw [ih.2.2, hcnt]
      cases b0 <;> simp <;> omega

theorem initGrid_length (rows columns : Nat) : (initGrid rows columns).length = rows := by
  simp [initGrid]

theorem initGrid_rect (rows columns : Nat) : rect (initGrid rows columns) columns := by
  intro row hrow
  simp only [initGrid, List.mem_map] at hrow
  obtain ⟨yy, _, rfl⟩ := hrow
  simp

theorem initGrid_filter_nil (rows columns : Nat) (p : Field → Bool)
    (hplank : ∀ fl : Field, fl.type = FieldType.Plankton → p fl = false) :
    (initGrid rows columns).flatten.filter p = [] := by
  rw [List.filter_eq_nil_iff]
  intro a ha
  rw [List.mem_flatten] at ha
  obtain ⟨l, hl, hal⟩ := ha
  simp only [initGrid, List.mem_map] at hl
  obtain ⟨yy, _, rfl⟩ := hl
  simp only [List.mem_map] at hal
  obtain ⟨xx, _, rfl⟩ := hal
  simp [hplank ⟨FieldType.Plankton, xx, yy, none⟩ rfl]

/-- C9: whenever `generate_random_animals` completes (the rejection
sampling found a free cell for every placement) on a board whose requested
populations fit on the grid, the resulting grid holds exactly the requested
`(fish_count, shark_count)`: each placement lands on a cell that was
plankton, so no animal is ever overwritten. -/
theorem C9_generate_counts (b : Board) (rng : RngStream) (fuel : Nat)
    (b2 : Board) (rng2 : RngStream)
    (hle : b.amount_fishes + b.amount_sharks ≤ b.rows * b.columns)
    (h : b.generate_random_animals rng fuel = some (b2, rng2)) :
    b2.count_animals = (b.amount_fishes, b.amount_sharks) := by
  have hplankF : ∀ fl : Field, fl.type = FieldType.Plankton →
      (fl.type == FieldType.Fish) = false := by
    intro fl hfl
    simp [hfl]
  have hplankS : ∀ fl : Field, fl.type = FieldType.Plankton →
      (fl.type == FieldType.Shark) = false := by
    intro fl hfl
    simp [hfl]
  have hnewFF : ∀ (x y : Nat) (r : RngStream),
      (((Field.new FieldType.Fish x y none r).1.type == FieldType.Fish)) = true :=
    fun _ _ _ => rfl
  have hnewFS : ∀ (x y : Nat) (r : RngStream),
      (((Field.new FieldType.Fish x y none r).1.type == FieldType.Shark)) = false :=
    fun _ _ _ => rfl
  have hnewSF : ∀ (x y : Nat) (r : RngStream),
      (((Field.new FieldType.Shark x y none r).1.type == FieldType.Fish)) = false :=
    fun _ _ _ => rfl
  have hnewSS : ∀ (x y : Nat) (r : RngStream),
      (((Field.new FieldType.Shark x y none r).1.type == FieldType.Shark)) = true :=
    fun _ _ _ => rfl
  unfold Board.generate_random_animals at h
  cases h1 : placeAnimals FieldType.Fish b.amount_fishes
      (initGrid b.rows b.columns) rng fuel with
  | none =>
    rw [h1] at h
    exact absurd h (by simp)
  | some res1 =>
    obtain ⟨g1, rng1⟩ := res1
    rw [h1] at h
    simp only [] at h
    cases h2 : placeAnimals FieldType.Shark b.amount_sharks g1 rng1 fuel with
    | none =>
      rw [h2] at h
      exact absurd h (by simp)
    | some res2 =>
      obtain ⟨g2, rngF⟩ := res2
      rw [h2] at h
      simp only [Option.some.injEq, Prod.mk.injEq] at h
      obtain ⟨hb2, -⟩ := h
      subst hb2
      rw [count_animals_eq]
      show ((get_fishes g2).length, (get_sharks g2).length)
        = (b.amount_fishes, b.amount_sharks)
      by_cases hz : 0 < b.rows ∧ 0 < b.columns
      · obtain ⟨hr, hc⟩ := hz
        have hlen : 0 < (initGrid b.rows b.columns).length := by
          rw [initGrid_length]
          exact hr
        have hrect := initGrid_rect b.rows b.columns
        have s1F := placeAnimals_spec FieldType.Fish
          (fun field => field.type == FieldType.Fish) true b.columns hplankF hnewFF
          b.amount_fishes (initGrid b.rows b.columns) rng fuel g1 rng1 hlen hrect hc h1
        have s1S := placeAnimals_spec FieldType.Fish
          (fun field => field.type == FieldType.Shark) false b.columns hplankS hnewFS
          b.amount_fishes (initGrid b.rows b.columns) rng fuel g1 rng1 hlen hrect hc h1
        have hg1len : 0 < g1.length := by
          rw [s1F.1]
          exact hlen
        have s2F := placeAnimals_spec FieldType.Shark
          (fun field => field.type == FieldType.Fish) false b.columns hplankF hnewSF
          b.amount_sharks g1 rng1 fuel g2 rngF hg1len s1F.2.1 hc h2
        have s2S := placeAnimals_spec FieldType.Shark
          (fun field => field.type == FieldType.Shark) true b.columns hplankS hnewSS
          b.amount_sharks g1 rng1 fuel g2 rngF hg1len s1F.2.1 hc h2
        have hinitF := initGrid_filter_nil b.rows b.columns
          (fun field => field.type == FieldType.Fish) hplankF
        have hinitS := initGrid_filter_nil b.rows b.columns
          (fun field => field.type == FieldType.Shark) hplankS
        unfold get_fishes get_sharks
        have e1 : (g2.flatten.filter
            (fun field => field.type == FieldType.Fish)).length = b.amount_fishes := by
          rw [s2F.2.2, s1F.2.2, hinitF]
          simp
        have e2 : (g2.flatten.filter
            (fun field => field.type == FieldType.Shark)).length = b.amount_sharks := by
          rw [s2S.2.2, s1S.2.2, hinitS]
          simp
        rw [e1, e2]
      · have hzero : b.rows * b.columns = 0 := by
          rcases Nat.eq_zero_or_pos b.rows with h0 | h0
          · simp [h0]
          · rcases Nat.eq_zero_or_pos b.columns with hc0 | hc0
            · simp [hc0]
            · exact absurd ⟨h0, hc0⟩ hz
        have hf0 : b.amount_fishes = 0 := by omega
        have hs0 : b.amount_sharks = 0 := by omega
        rw [hf0] at h1
        rw [hs0] at h2
        unfold placeAnimals at h1 h2
        simp only [Option.some.injEq, Prod.mk.injEq] at h1 h2
        obtain ⟨hg1, -⟩ := h1
        obtain ⟨hg2, -⟩ := h2
        rw [← hg2, ← hg1]
        unfold get_fishes get_sharks
        rw [initGrid_filter_nil b.rows b.columns
            (fun field => field.type == FieldType.Fish) hplankF,
          initGrid_filter_nil b.rows b.columns
            (fun field => field.type == FieldType.Shark) hplankS]
        rw [hf0, hs0]
        rfl

/-- Witness for `C9_generate_counts`: 2 fish and 1 shark on a 2×2 grid with
a concrete draw stream. -/
theorem C9_generate_counts_witness :
    Board.count_animals
        ⟨2, 1, 2, 2,
          [[⟨FieldType.Fish, 0, 0, some ⟨none, 3⟩⟩, ⟨FieldType.Fish, 1, 0, some ⟨none, 3⟩⟩],
           [⟨FieldType.Shark, 0, 1, some ⟨some 2, 8⟩⟩, ⟨FieldType.Plankton, 1, 1, none⟩]]⟩
      = (2, 1) :=
  C9_generate_counts ⟨2, 1, 2, 2, []⟩ [0, 0, 1, 0, 0, 1, 1, 1] 3
    ⟨2, 1, 2, 2,
      [[⟨FieldType.Fish, 0, 0, some ⟨none, 3⟩⟩, ⟨FieldType.Fish, 1, 0, some ⟨none, 3⟩⟩],
       [⟨FieldType.Shark, 0, 1, some ⟨some 2, 8⟩⟩, ⟨FieldType.Plankton, 1, 1, none⟩]]⟩
    [1] (by decide) (by decide)

end Wator
